import Mathlib

/-!
Shallow embedding of the instagram-dm-agent core: the Redis-backed
conversation store (`src/src/core/conversation_store.py`), the followup
scheduler (`src/backend/src/services/followup_scheduler.py`), the booking
URL ref injection (`src/backend/src/services/booking_utils.py`), the
inbound webhook turn handler (`src/src/api/webhooks/instagram.py`), and the
voice-side followup service (`src/voice_agent/followup_service.py`).

Instants are modelled as integer seconds.  A timestamp field stored in a
record is `Option (Option Int)`: `none` means the JSON key is absent or
falsy, `some none` means present but unparseable (ISO parse raises), and
`some (some t)` means it parses to instant `t`.  Elapsed hours are rational,
as in the Python `total_seconds() / 3600`.
-/

namespace DMAgent

/-- One message entry of a conversation's `messages` list.  The Python dict
has keys `role`, `content`, `timestamp`; the `is_followup` key is only ever
written by the followup dispatcher, so absence is modelled as `false`. -/
structure Msg where
  role : String
  content : String
  timestamp : Int
  is_followup : Bool := false
deriving Repr, DecidableEq

/-- A stored conversation record, as serialized under
`conversation:{client_id}:{customer_id}`.  Fields read through `.get` with a
default are total here with that default standing for the absent key. -/
structure StoredConv where
  client_id : String
  customer_id : String
  messages : List Msg
  created_at : Int
  last_interaction : Option (Option Int) := none
  followup_count : Nat := 0
  last_followup_at : Option (Option Int) := none
  summary : String := ""
  message_count : Nat := 0
deriving Repr, DecidableEq

/-- Customer metadata record (separate `customer:{client}:{customer}` key);
`agent_blocked` read with `.get("agent_blocked", False)`. -/
structure CustomerMeta where
  agent_blocked : Bool := false
  username : String := ""
  name : String := ""
deriving Repr, DecidableEq

/-- Elapsed hours `(now - last).total_seconds() / 3600` as an exact rational (stated as
`mkRat` so that concrete instances evaluate; `hoursBetween_eq_div` below
identifies it with the literal cast-and-divide form). -/
def hoursBetween (now last : Int) : ℚ :=
  mkRat (now - last) 3600

theorem hoursBetween_eq_div (now last : Int) :
    hoursBetween now last = ((now - last : Int) : ℚ) / 3600 := by
  rw [hoursBetween, Rat.mkRat_eq_div]
  norm_num

/-! ### Conversation store (`ConversationStore`) -/

/-- The fresh conversation dict created by `add_message` when no record
exists yet. -/
def newConv (client_id customer_id : String) (now : Int) : StoredConv :=
  { client_id := client_id, customer_id := customer_id, messages := [],
    created_at := now }

/-- Model of `ConversationStore.add_message`: append a message (timestamp defaulting
to now), set `last_interaction` to the current time, refresh
`message_count`.  `conv?` is the current value at the conversation key. -/
def add_message (now : Int) (role content : String) (ts? : Option Int)
    (client_id customer_id : String) (conv? : Option StoredConv) : StoredConv :=
  let base := conv?.getD (newConv client_id customer_id now)
  let msg : Msg := { role := role, content := content,
                     timestamp := ts?.getD now }
  let msgs := base.messages ++ [msg]
  { base with messages := msgs,
              last_interaction := some (some now),
              message_count := msgs.length }

/-- Model of `ConversationStore.get_user_type`.  The whole body is wrapped in a
`try`, so an unparseable `last_interaction` (`some none`) falls into the
`except` branch and returns `"new"`.  A falsy/absent `last_interaction`
skips the age check and returns `"returning"`.  The age check is Python
`timedelta.days > 7`, i.e. floor-division of the elapsed seconds. -/
def get_user_type (now : Int) (conv? : Option StoredConv) : String :=
  match conv? with
  | none => "new"
  | some conv =>
    if conv.messages.isEmpty then "new"
    else
      match conv.last_interaction with
      | none => "returning"
      | some none => "new"
      | some (some t) =>
        if 7 < Int.fdiv (now - t) 86400 then "inactive" else "returning"

/-! ### Followup scheduler (`FollowupScheduler`) -/

def FIRST_FOLLOWUP_HOURS : ℚ := 2
def SECOND_FOLLOWUP_HOURS : ℚ := 24
def MAX_FOLLOWUPS : Nat := 2

/-- The "last message was from agent" check of
`_get_inactive_conversations`: with a non-empty log the last role must be
`agent` or `assistant`; an empty log skips the check. -/
def lastRoleAllowsFollowup (messages : List Msg) : Bool :=
  match messages.getLast? with
  | none => true
  | some m => m.role == "agent" || m.role == "assistant"

/-- The second-followup spacing gate: only applied when
`followup_count == 1`; a missing (`none`) or unparseable (`some none`)
`last_followup_at` falls through (`if last_followup:` / `except: pass`)
and the gate passes. -/
def secondTierOk (now : Int) (followup_count : Nat)
    (last_followup_at : Option (Option Int)) : Bool :=
  if followup_count == 1 then
    match last_followup_at with
    | some (some t) => !(hoursBetween now t < SECOND_FOLLOWUP_HOURS)
    | _ => true
  else true

/-- Eligibility filter of `FollowupScheduler._get_inactive_conversations`
for one conversation record, in the source's check order. -/
def eligibleConv (now : Int) (conv : StoredConv) : Bool :=
  match conv.last_interaction with
  | some (some lastTime) =>
    if hoursBetween now lastTime < FIRST_FOLLOWUP_HOURS then false
    else if MAX_FOLLOWUPS ≤ conv.followup_count then false
    else if !lastRoleAllowsFollowup conv.messages then false
    else secondTierOk now conv.followup_count conv.last_followup_at
  | _ => false

/-- The candidate dict appended to `eligible` by the scanner. -/
structure Candidate where
  customer_id : String
  messages : List Msg
  hours_inactive : ℚ
  followup_count : Nat
  summary : String
deriving Repr, DecidableEq

/-- Model of `FollowupScheduler._get_inactive_conversations` over the list of stored
conversation records for a client. -/
def getInactiveConversations (now : Int) : List StoredConv → List Candidate
  | [] => []
  | conv :: rest =>
    (match conv.last_interaction with
     | some (some lastTime) =>
       if eligibleConv now conv then
         [{ customer_id := conv.customer_id, messages := conv.messages,
            hours_inactive := hoursBetween now lastTime,
            followup_count := conv.followup_count,
            summary := conv.summary }]
       else []
     | _ => []) ++ getInactiveConversations now rest

/-- Result dict of `FollowupAgent.generate_followup_for_conversation`. -/
structure FollowupResult where
  should_send : Bool
  followup_message : String
  reasoning : String := ""
deriving Repr, DecidableEq

/-- Model of `FollowupScheduler._update_followup_tracking`: increment the counter,
stamp `last_followup_at`, append the followup message flagged
`is_followup=True`, refresh `last_interaction` and `message_count`. -/
def updateFollowupTracking (now : Int) (message : String)
    (conv : StoredConv) : StoredConv :=
  let msgs := conv.messages ++
    [{ role := "agent", content := message, timestamp := now,
       is_followup := true }]
  { conv with followup_count := conv.followup_count + 1,
              last_followup_at := some (some now),
              messages := msgs,
              last_interaction := some (some now),
              message_count := msgs.length }

/-- Model of `FollowupScheduler._process_conversation_followup` acting on the stored
record: skip when the agent says not to send or produced an empty message;
update tracking only when the outbound send returned no error
(`sendOk = true`); leave the record untouched on a send error. -/
def processConversationFollowup (now : Int) (conv : StoredConv)
    (result : FollowupResult) (sendOk : Bool) : StoredConv :=
  if !result.should_send then conv
  else if result.followup_message == "" then conv
  else if sendOk then updateFollowupTracking now result.followup_message conv
  else conv

/-! ### Booking URL ref injection (`booking_utils.inject_booking_ref`)

The three patterns are `https?://[^\s]*D[^\s\?\)]+` for
`D ∈ {mojo.page/, cal.com/, calendly.com/}`, substituted one after the
other over the whole text with `re.sub`.  The model reproduces the
leftmost-match scan and the greedy backtracking of `[^\s]*` (which settles
on the last occurrence of the domain marker inside the maximal run of
non-whitespace characters). -/

/-- Python `\s` on the characters occurring here. -/
def isPySpace (c : Char) : Bool :=
  c == ' ' || c == '\t' || c == '\n' || c == '\r' ||
  c == '\x0b' || c == '\x0c'

/-- The character class `[^\s\?\)]` closing each booking pattern. -/
def isTailChar (c : Char) : Bool :=
  !isPySpace c && c != '?' && c != ')'

/-- Largest `p` in `0..bound` with `viable p`, i.e. the position the greedy
`[^\s]*` backtracks to. -/
def lastViable (viable : Nat → Bool) : Nat → Option Nat
  | 0 => if viable 0 then some 0 else none
  | p + 1 => if viable (p + 1) then some (p + 1) else lastViable viable p

/-- Scheme `https?://` at the start of `s`: number of characters it consumes. -/
def schemeLen (s : List Char) : Option Nat :=
  if List.isPrefixOf "https://".data s then some 8
  else if List.isPrefixOf "http://".data s then some 7
  else none

/-- Length of the regex match `https?://[^\s]*D[^\s\?\)]+` anchored at the
start of `s`, if any. -/
def matchAt (d s : List Char) : Option Nat :=
  match schemeLen s with
  | none => none
  | some k =>
    let rest := s.drop k
    let runLen := (rest.takeWhile (fun c => !isPySpace c)).length
    let viable := fun p =>
      List.isPrefixOf d (rest.drop p) &&
        (match (rest.drop (p + d.length)).head? with
         | some c => isTailChar c
         | none => false)
    match lastViable viable runLen with
    | none => none
    | some p =>
      let tailLen := ((rest.drop (p + d.length)).takeWhile isTailChar).length
      some (k + p + d.length + tailLen)

/-- The replacement callback `add_ref`: append `ref=<customer_id>` with
`&` when the matched URL already contains `?`, else with `?`. -/
def addRef (ref url : List Char) : List Char :=
  let sep : Char := if url.contains '?' then '&' else '?'
  url ++ sep :: ("ref=".data ++ ref)

/-- One `re.sub` pass: scan left to right, replace every match, continue
after the matched portion of the original text.  `fuel ≥ s.length` is
enough since every step consumes at least one character. -/
def reSubAux (d ref : List Char) : Nat → List Char → List Char
  | 0, s => s
  | fuel + 1, s =>
    match matchAt d s with
    | some n => addRef ref (s.take n) ++ reSubAux d ref fuel (s.drop n)
    | none =>
      match s with
      | [] => []
      | c :: t => c :: reSubAux d ref fuel t

/-- One full `re.sub(pattern_for_d, add_ref, s)` pass. -/
def reSub (d ref s : List Char) : List Char :=
  reSubAux d ref s.length s

/-- The three booking-domain markers, in the source's order. -/
def bookingDomains : List (List Char) :=
  ["mojo.page/".data, "cal.com/".data, "calendly.com/".data]

/-- Model of `booking_utils.inject_booking_ref(text, customer_id)` (identical code
in `ActionAgent._inject_booking_ref`). -/
def inject_booking_ref (text customer_id : String) : String :=
  ⟨bookingDomains.foldl (fun t d => reSub d customer_id.data t) text.data⟩

/-! ### Inbound webhook turn (`receive_webhook` in
`src/src/api/webhooks/instagram.py`)

The per-customer slice that decides a turn: the inbound message is stored,
then customer metadata is read and `agent_blocked` short-circuits the turn
before the agent pipeline (`process_message`) is invoked; otherwise the
pipeline runs, a non-empty reply is appended as an agent message and the
result carries the response text. -/

/-- The per-(client, customer) state the handler touches. -/
structure TurnState where
  conv : Option StoredConv
  meta : CustomerMeta
deriving Repr, DecidableEq

/-- Result dict of `process_message` (the agent pipeline), as read by the
webhook handler. -/
structure PipelineOut where
  response_text : String
  actions_taken : List String
deriving Repr, DecidableEq

/-- What the webhook returns for an inbound message: the blocked
short-circuit returns `{"status": "ok", "message": "Customer is blocked",
"blocked": True}` with no `response` key. -/
structure WebhookResult where
  status : String
  info : String
  blocked : Bool := false
  response : Option String := none
deriving Repr, DecidableEq

/-- Model of `receive_webhook` from the point the message is saved: append the
customer message, read `agent_blocked` from metadata, short-circuit if
blocked, otherwise run the pipeline and append the non-empty agent reply.
The pipeline is passed as a function so that "the Reply Generator is never
invoked" is expressible as insensitivity to it. -/
def receiveWebhookCore (now : Int) (client_id sender_id text : String)
    (st : TurnState) (pipeline : TurnState → PipelineOut) :
    TurnState × WebhookResult :=
  let conv1 := add_message now "customer" text none client_id sender_id st.conv
  let st1 : TurnState := { st with conv := some conv1 }
  if st.meta.agent_blocked then
    (st1, { status := "ok", info := "Customer is blocked", blocked := true })
  else
    let out := pipeline st1
    let st2 : TurnState :=
      if out.response_text == "" then st1
      else { st1 with
        conv := some (add_message now "agent" out.response_text none
                        client_id sender_id st1.conv) }
    (st2, { status := "ok", info := "", response := some out.response_text })

/-! ### Voice followup service (`voice_agent/followup_service.py`)

`schedule_followup` stores a hash per `followup:{client}:{conv}` key and
adds the key to the `followups:scheduled` sorted set scored by
`execute_at = now + delay_minutes * 60`; `execute_pending_followups` drains
`zrangebyscore(0, now)`, skipping completed entries, marking executed ones
completed and removing them from the sorted set. -/

/-- The tier delays (minutes) from `config.settings`. -/
structure VoiceSettings where
  followup_delay_warm : Int := 2
  followup_delay_cold : Int := 1440
deriving Repr, DecidableEq

/-- The hash stored per scheduled followup. -/
structure VoiceEntry where
  conv_id : String
  client_id : String
  lead_type : String
  followup_type : String
  execute_at : Int
  status : String
  created_at : Int
deriving Repr, DecidableEq

/-- Redis slice used by the voice followup service: the per-key hashes and
the `followups:scheduled` sorted set (member, score). -/
structure VoiceState where
  entries : List (String × VoiceEntry)
  scheduled : List (String × Int)
deriving Repr, DecidableEq

/-- Association update: overwrite the value at the key if present
(`hset` with a full mapping / `zadd` re-scoring a member), else append. -/
def assocSet {α : Type} (k : String) (v : α) :
    List (String × α) → List (String × α)
  | [] => [(k, v)]
  | (k', v') :: rest =>
    if k' == k then (k, v) :: rest else (k', v') :: assocSet k v rest

/-- Association lookup (`hgetall` returning the hash or nothing). -/
def assocGet {α : Type} (k : String) : List (String × α) → Option α
  | [] => none
  | (k', v') :: rest => if k' == k then some v' else assocGet k rest

/-- Association removal (`zrem`). -/
def assocRemove {α : Type} (k : String) :
    List (String × α) → List (String × α)
  | [] => []
  | (k', v') :: rest =>
    if k' == k then assocRemove k rest else (k', v') :: assocRemove k rest

/-- The redis key `followup:{client_id or "lumoscale"}:{conv_id}`. -/
def voiceKey (client_id : Option String) (conv_id : String) : String :=
  "followup:" ++ client_id.getD "lumoscale" ++ ":" ++ conv_id

/-- Model of `FollowupService.schedule_followup`: hot leads are never scheduled;
warm leads get `followup_delay_warm` minutes and `call_and_sms`, cold leads
get `followup_delay_cold` minutes and `sms_only`. -/
def schedule_followup (S : VoiceSettings) (now : Int)
    (conv_id lead_type : String) (client_id : Option String)
    (st : VoiceState) : VoiceState :=
  if lead_type == "hot" then st
  else
    let delayMinutes :=
      if lead_type == "warm" then S.followup_delay_warm
      else S.followup_delay_cold
    let fType :=
      if lead_type == "warm" then "call_and_sms" else "sms_only"
    let executeAt := now + delayMinutes * 60
    let key := voiceKey client_id conv_id
    let entry : VoiceEntry :=
      { conv_id := conv_id, client_id := client_id.getD "lumoscale",
        lead_type := lead_type, followup_type := fType,
        execute_at := executeAt, status := "pending", created_at := now }
    { entries := assocSet key entry st.entries,
      scheduled := assocSet key executeAt st.scheduled }

/-- Processing of one due key inside `execute_pending_followups`: missing
hash or completed status is skipped; otherwise the SMS/call action runs,
the status flips to `completed` and the key leaves the sorted set. -/
def executeOne (st : VoiceState × Nat) (key : String) : VoiceState × Nat :=
  match assocGet key st.1.entries with
  | none => st
  | some e =>
    if e.status == "completed" then st
    else
      ({ entries := assocSet key { e with status := "completed" } st.1.entries,
         scheduled := assocRemove key st.1.scheduled },
       st.2 + 1)

/-- Model of `FollowupService.execute_pending_followups`: drain all members of the
sorted set with `0 ≤ score ≤ now` and return the updated state with the
number of followups executed. -/
def execute_pending_followups (now : Int) (st : VoiceState) :
    VoiceState × Nat :=
  let due := (st.scheduled.filter
    (fun p => decide (0 ≤ p.2) && decide (p.2 ≤ now))).map Prod.fst
  due.foldl executeOne (st, 0)

/-! ### Operations on one conversation record

The two kinds of writers the followup counter can see: an inbound-turn
`add_message` (webhook / turn pipeline) and one scheduler sweep over the
conversation (`_get_inactive_conversations` filter followed by
`_process_conversation_followup`). -/

/-- One operation on a single conversation's stored record. -/
inductive ConvOp where
  | inbound (role content : String) (ts? : Option Int) (now : Int)
  | sweep (now : Int) (res : FollowupResult) (sendOk : Bool)
deriving Repr, DecidableEq

/-- Apply one operation to the value at the conversation key.  A sweep only
dispatches when the record passes the scanner's eligibility filter
(`_update_followup_tracking` is a no-op on a missing key). -/
def stepConv (client_id customer_id : String)
    (conv? : Option StoredConv) (op : ConvOp) : Option StoredConv :=
  match op with
  | .inbound role content ts? now =>
      some (add_message now role content ts? client_id customer_id conv?)
  | .sweep now res sendOk =>
    match conv? with
    | none => none
    | some conv =>
      if eligibleConv now conv then
        some (processConversationFollowup now conv res sendOk)
      else some conv

/-- The `followup_count` as read back from the key (`.get("followup_count", 0)`
on a missing record). -/
def fcount (conv? : Option StoredConv) : Nat :=
  (conv?.map StoredConv.followup_count).getD 0

/-! ### Helper lemmas -/

theorem fcount_add_message (now : Int) (role content : String)
    (ts? : Option Int) (cid uid : String) (conv? : Option StoredConv) :
    fcount (some (add_message now role content ts? cid uid conv?))
      = fcount conv? := by
  cases conv? <;> rfl

theorem eligibleConv_eq (now : Int) (conv : StoredConv) (t : Int)
    (h : conv.last_interaction = some (some t)) :
    eligibleConv now conv =
      (!decide (hoursBetween now t < FIRST_FOLLOWUP_HOURS) &&
       !decide (MAX_FOLLOWUPS ≤ conv.followup_count) &&
       lastRoleAllowsFollowup conv.messages &&
       secondTierOk now conv.followup_count conv.last_followup_at) := by
  unfold eligibleConv
  rw [h]
  by_cases h1 : hoursBetween now t < FIRST_FOLLOWUP_HOURS
  · simp [h1]
  · by_cases h2 : MAX_FOLLOWUPS ≤ conv.followup_count
    · simp [h1, h2]
    · by_cases h3 : lastRoleAllowsFollowup conv.messages = true
      · simp [h1, h2, h3]
      · simp [h1, h2, Bool.eq_false_iff.mpr h3]

theorem eligibleConv_bad_interaction (now : Int) (conv : StoredConv)
    (h : conv.last_interaction = none ∨ conv.last_interaction = some none) :
    eligibleConv now conv = false := by
  unfold eligibleConv
  rcases h with h | h <;> rw [h]

theorem eligible_count_lt (now : Int) (conv : StoredConv)
    (h : eligibleConv now conv = true) :
    conv.followup_count < MAX_FOLLOWUPS := by
  rcases hli : conv.last_interaction with _ | ⟨_ | t⟩
  · rw [eligibleConv_bad_interaction now conv (Or.inl hli)] at h; cases h
  · rw [eligibleConv_bad_interaction now conv (Or.inr hli)] at h; cases h
  · rw [eligibleConv_eq now conv t hli] at h
    have := (Bool.and_eq_true _ _).mp ((Bool.and_eq_true _ _).mp
      ((Bool.and_eq_true _ _).mp h).1).1
    simpa [Nat.lt_iff_add_one_le, Nat.not_le] using this.2

/-! ### C4 -/

/-- C4: a stored conversation whose most recent message has role
`customer` is never selected by the followup eligibility scanner, no
matter how long it has been inactive. -/
theorem scanner_never_chases_customer (now : Int) (conv : StoredConv)
    (m : Msg) (hlast : conv.messages.getLast? = some m)
    (hrole : m.role = "customer") : eligibleConv now conv = false := by
  have hr : lastRoleAllowsFollowup conv.messages = false := by
    simp only [lastRoleAllowsFollowup, hlast, hrole]
    decide
  rcases hli : conv.last_interaction with _ | ⟨_ | t⟩
  · exact eligibleConv_bad_interaction now conv (Or.inl hli)
  · exact eligibleConv_bad_interaction now conv (Or.inr hli)
  · rw [eligibleConv_eq now conv t hli, hr]
    simp

/-- A ten-hours-inactive conversation whose last message is from the
customer. -/
def c4conv : StoredConv :=
  { client_id := "T1", customer_id := "C1",
    messages := [{ role := "customer", content := "hi", timestamp := 0 }],
    created_at := 0, last_interaction := some (some 0) }

/-- Witness for C4: the concrete customer-last conversation is excluded. -/
theorem scanner_never_chases_customer_witness :
    eligibleConv 36000 c4conv = false :=
  scanner_never_chases_customer 36000 c4conv
    { role := "customer", content := "hi", timestamp := 0 }
    (by decide) rfl

/-! ### C5 -/

/-- C5: with followup_count = 1 and a recorded, parseable
last_followup_at, the scanner selects the conversation only when at least
SECOND_FOLLOWUP_HOURS (24 h) have passed since the last followup; under
24 h it is excluded even if general inactivity passes the first tier. -/
theorem second_followup_spacing (now t : Int) (conv : StoredConv)
    (hc : conv.followup_count = 1)
    (hlf : conv.last_followup_at = some (some t)) :
    (eligibleConv now conv = true →
      SECOND_FOLLOWUP_HOURS ≤ hoursBetween now t)
    ∧ (hoursBetween now t < SECOND_FOLLOWUP_HOURS →
      eligibleConv now conv = false) := by
  have key : hoursBetween now t < SECOND_FOLLOWUP_HOURS →
      eligibleConv now conv = false := by
    intro hlt
    have hst : secondTierOk now conv.followup_count conv.last_followup_at
        = false := by
      simp [secondTierOk, hc, hlf, hlt]
    rcases hli : conv.last_interaction with _ | ⟨_ | u⟩
    · exact eligibleConv_bad_interaction now conv (Or.inl hli)
    · exact eligibleConv_bad_interaction now conv (Or.inr hli)
    · rw [eligibleConv_eq now conv u hli, hst]
      simp
  refine ⟨fun he => ?_, key⟩
  by_contra hn
  rw [key (lt_of_not_le hn)] at he
  simp at he

/-- followup_count = 1, last followup 25 h ago, inactive for 90 h, agent
sent last. -/
def c5conv : StoredConv :=
  { client_id := "T1", customer_id := "C1",
    messages := [{ role := "agent", content := "hey", timestamp := 0 }],
    created_at := 0, last_interaction := some (some 0),
    followup_count := 1, last_followup_at := some (some 234000) }

/-- Witness for C5: the concrete eligible conversation indeed has ≥ 24 h
since its last followup. -/
theorem second_followup_spacing_witness :
    SECOND_FOLLOWUP_HOURS ≤ hoursBetween 324000 234000 :=
  (second_followup_spacing 324000 234000 c5conv rfl rfl).1 (by decide)

/-! ### C10 -/

/-- C10: with followup_count = 1 but a missing or unparseable
last_followup_at, the 24-hour spacing gate is skipped entirely: the
conversation is a candidate exactly when its last_interaction parses,
first-tier inactivity holds and the last message allows a followup. -/
theorem missing_last_followup_skips_spacing (now : Int) (conv : StoredConv)
    (hc : conv.followup_count = 1)
    (hlf : conv.last_followup_at = none ∨ conv.last_followup_at = some none) :
    eligibleConv now conv = true ↔
      ∃ t, conv.last_interaction = some (some t) ∧
        FIRST_FOLLOWUP_HOURS ≤ hoursBetween now t ∧
        lastRoleAllowsFollowup conv.messages = true := by
  have hst : secondTierOk now conv.followup_count conv.last_followup_at
      = true := by
    rcases hlf with h | h <;> simp [secondTierOk, hc, h]
  have hcnt : (!decide (MAX_FOLLOWUPS ≤ conv.followup_count)) = true := by
    rw [hc]; decide
  rcases hli : conv.last_interaction with _ | ⟨_ | t⟩
  · rw [eligibleConv_bad_interaction now conv (Or.inl hli)]
    simp [hli]
  · rw [eligibleConv_bad_interaction now conv (Or.inr hli)]
    simp [hli]
  · rw [eligibleConv_eq now conv t hli, hst, hcnt]
    simp [hli, not_lt]

/-- followup_count = 1, last_followup_at never recorded, inactive 3 h,
agent sent last. -/
def c10conv : StoredConv :=
  { client_id := "T1", customer_id := "C1",
    messages := [{ role := "agent", content := "hey", timestamp := 0 }],
    created_at := 0, last_interaction := some (some 0),
    followup_count := 1, last_followup_at := none }

/-- Witness for C10: the concrete conversation is selected for the second
followup with only first-tier inactivity and no recorded last followup. -/
theorem missing_last_followup_skips_spacing_witness :
    eligibleConv 10800 c10conv = true :=
  (missing_last_followup_skips_spacing 10800 c10conv rfl (Or.inl rfl)).mpr
    ⟨0, rfl, by decide, by decide⟩

/-! ### C1 -/

theorem fcount_stepConv (cid uid : String) (conv? : Option StoredConv)
    (op : ConvOp) :
    fcount conv? ≤ fcount (stepConv cid uid conv? op)
    ∧ (fcount conv? ≤ MAX_FOLLOWUPS →
        fcount (stepConv cid uid conv? op) ≤ MAX_FOLLOWUPS) := by
  cases op with
  | inbound role content ts? now =>
    simp [stepConv, fcount_add_message]
  | sweep now res sendOk =>
    cases conv? with
    | none => simp [stepConv]
    | some conv =>
      by_cases he : eligibleConv now conv = true
      · have hlt := eligible_count_lt now conv he
        simp only [stepConv, he, if_true]
        unfold processConversationFollowup
        split_ifs with h1 h2 h3
        · simp
        · simp
        · simp only [fcount, Option.map_some, Option.getD_some,
            updateFollowupTracking]
          exact ⟨Nat.le_succ _, fun _ => hlt⟩
        · simp
      · simp [stepConv, he]

theorem fcount_change_only_dispatch (cid uid : String)
    (conv? : Option StoredConv) (op : ConvOp)
    (hne : fcount (stepConv cid uid conv? op) ≠ fcount conv?) :
    ∃ now res sendOk conv, op = ConvOp.sweep now res sendOk ∧
      conv? = some conv ∧ eligibleConv now conv = true ∧
      stepConv cid uid conv? op =
        some (updateFollowupTracking now res.followup_message conv) ∧
      fcount (stepConv cid uid conv? op) = fcount conv? + 1 := by
  cases op with
  | inbound role content ts? now =>
    exact absurd (fcount_add_message now role content ts? cid uid conv?) hne
  | sweep now res sendOk =>
    cases conv? with
    | none => exact absurd rfl hne
    | some conv =>
      by_cases he : eligibleConv now conv = true
      · refine ⟨now, res, sendOk, conv, rfl, rfl, he, ?_⟩
        simp only [stepConv, he, if_true] at hne ⊢
        unfold processConversationFollowup at hne ⊢
        split_ifs at hne ⊢ with h1 h2 h3
        · exact absurd rfl hne
        · exact absurd rfl hne
        · exact ⟨rfl, by simp [fcount, updateFollowupTracking]⟩
        · exact absurd rfl hne
      · rw [stepConv] at hne
        simp only [he] at hne
        exact absurd rfl hne

/-- C1: over every sequence of conversation-store and scheduler
operations, followup_count is monotonically non-decreasing, stays within
MAX_FOLLOWUPS = 2 once within it, and the only step that changes it is a
scheduler sweep dispatching through _update_followup_tracking, which
increments it by exactly one on a conversation the scanner found eligible
(hence never past the max). -/
theorem followup_count_invariant (cid uid : String)
    (conv? : Option StoredConv) (ops : List ConvOp)
    (hb : fcount conv? ≤ MAX_FOLLOWUPS) :
    fcount conv? ≤ fcount (ops.foldl (stepConv cid uid) conv?)
    ∧ fcount (ops.foldl (stepConv cid uid) conv?) ≤ MAX_FOLLOWUPS
    ∧ ∀ c? op, fcount (stepConv cid uid c? op) ≠ fcount c? →
        ∃ now res sendOk conv, op = ConvOp.sweep now res sendOk ∧
          c? = some conv ∧ eligibleConv now conv = true ∧
          stepConv cid uid c? op =
            some (updateFollowupTracking now res.followup_message conv) ∧
          fcount (stepConv cid uid c? op) = fcount c? + 1 := by
  refine ⟨?_, ?_, fun c? op => fcount_change_only_dispatch cid uid c? op⟩
  · clear hb
    induction ops generalizing conv? with
    | nil => exact le_refl _
    | cons op rest ih =>
      exact le_trans (fcount_stepConv cid uid conv? op).1
        (ih (stepConv cid uid conv? op))
  · induction ops generalizing conv? with
    | nil => exact hb
    | cons op rest ih =>
      exact ih (stepConv cid uid conv? op)
        ((fcount_stepConv cid uid conv? op).2 hb)

/-- An inbound turn, an agent reply, then a dispatching sweep ten hours
later. -/
def c1ops : List ConvOp :=
  [ConvOp.inbound "customer" "hi" none 0,
   ConvOp.inbound "agent" "yo" none 10,
   ConvOp.sweep 36000 { should_send := true, followup_message := "ping" } true]

/-- Witness for C1: running the concrete operation sequence from an empty
key keeps followup_count within the maximum. -/
theorem followup_count_invariant_witness :
    fcount (c1ops.foldl (stepConv "T1" "C1") none) ≤ MAX_FOLLOWUPS :=
  (followup_count_invariant "T1" "C1" none c1ops (by decide)).2.1

/-! ### C6 -/

/-- C6: dispatch atomicity for a candidate the agent wants to message:
a failed send leaves the conversation record untouched (counter, timestamp
and message log unchanged, so the candidate stays eligible next sweep); a
confirmed send increments followup_count by exactly one, stamps
last_followup_at with the dispatch time and appends the followup message
flagged is_followup = true. -/
theorem followup_dispatch_atomic (now : Int) (conv : StoredConv)
    (res : FollowupResult) (hs : res.should_send = true)
    (hm : res.followup_message ≠ "") :
    processConversationFollowup now conv res false = conv
    ∧ (processConversationFollowup now conv res true).followup_count
        = conv.followup_count + 1
    ∧ (processConversationFollowup now conv res true).last_followup_at
        = some (some now)
    ∧ (processConversationFollowup now conv res true).messages
        = conv.messages ++
          [{ role := "agent", content := res.followup_message,
             timestamp := now, is_followup := true }] := by
  have hm' : (res.followup_message == "") = false :=
    beq_eq_false_iff_ne.mpr hm
  simp [processConversationFollowup, hs, hm', updateFollowupTracking]

/-- An eligible candidate's stored record before dispatch. -/
def c6conv : StoredConv :=
  { client_id := "T1", customer_id := "C1",
    messages := [{ role := "agent", content := "hi", timestamp := 0 }],
    created_at := 0, last_interaction := some (some 0) }

/-- Witness for C6: failed send at the concrete candidate changes
nothing. -/
theorem followup_dispatch_atomic_witness :
    processConversationFollowup 36000 c6conv
      { should_send := true, followup_message := "ping" } false = c6conv :=
  (followup_dispatch_atomic 36000 c6conv
    { should_send := true, followup_message := "ping" } rfl (by decide)).1

/-! ### C7 -/

/-- C7 counterexample: an add_message call with an explicit timestamp
argument stores that timestamp on the appended message but sets
last_interaction to the current time, so the two differ. -/
theorem add_message_explicit_ts_cex :
    ((add_message 100 "customer" "hi" (some 5) "T1" "C1" none).messages.getLast?.map
       Msg.timestamp) = some 5
    ∧ (add_message 100 "customer" "hi" (some 5) "T1" "C1" none).last_interaction
        = some (some 100)
    ∧ (5 : Int) ≠ 100 :=
  ⟨rfl, rfl, by decide⟩

/-- C7 amended: when no explicit timestamp is supplied, last_interaction
equals the appended message's timestamp (both the current time), and the
followup dispatcher's append preserves this; but in general add_message
always sets last_interaction to the current time, not to the supplied
timestamp. -/
theorem add_message_last_interaction (now : Int)
    (role content cid uid : String) (conv? : Option StoredConv) :
    ((add_message now role content none cid uid conv?).messages.getLast?.map
       Msg.timestamp) = some now
    ∧ (∀ ts?, (add_message now role content ts? cid uid conv?).last_interaction
        = some (some now))
    ∧ ∀ (msg : String) (conv : StoredConv),
        ((updateFollowupTracking now msg conv).messages.getLast?.map
          Msg.timestamp) = some now
        ∧ (updateFollowupTracking now msg conv).last_interaction
            = some (some now) := by
  refine ⟨?_, fun ts? => rfl, fun msg conv => ⟨?_, rfl⟩⟩
  · simp [add_message]
  · simp [updateFollowupTracking]

/-! ### C8 -/

/-- A conversation with one message, last interaction at time 0. -/
def c8conv : StoredConv :=
  { client_id := "T1", customer_id := "C1",
    messages := [{ role := "customer", content := "hi", timestamp := 0 }],
    created_at := 0, last_interaction := some (some 0) }

/-- C8 counterexample: 7.5 days (648000 s) after the last interaction the
user is strictly older than 7 days, yet get_user_type still returns
"returning" because the code compares whole elapsed days (floor) with
`> 7`. -/
theorem get_user_type_boundary_cex :
    get_user_type 648000 (some c8conv) = "returning"
    ∧ (7 * 86400 : Int) < 648000 - 0
    ∧ ("returning" : String) ≠ "inactive" :=
  ⟨rfl, by decide, by decide⟩

/-- C8 amended: get_user_type is a pure derivation returning "new" exactly
when there is no record, no message, or an unparseable last_interaction;
"inactive" exactly when there are messages and at least 8 full days
(floor of elapsed days > 7) have passed since last_interaction; and
"returning" exactly when there are messages and last_interaction is
missing or less than 8 full days old. -/
theorem get_user_type_characterization (now : Int)
    (conv? : Option StoredConv) :
    (get_user_type now conv? = "new" ↔
      conv? = none ∨ ∃ conv, conv? = some conv ∧
        (conv.messages = [] ∨ conv.last_interaction = some none))
    ∧ (get_user_type now conv? = "inactive" ↔
      ∃ conv t, conv? = some conv ∧ conv.messages ≠ [] ∧
        conv.last_interaction = some (some t) ∧ 8 * 86400 ≤ now - t)
    ∧ (get_user_type now conv? = "returning" ↔
      ∃ conv, conv? = some conv ∧ conv.messages ≠ [] ∧
        (conv.last_interaction = none ∨
          ∃ t, conv.last_interaction = some (some t) ∧
            now - t < 8 * 86400)) := by
  have hdays : ∀ x : Int, (7 < Int.fdiv x 86400 ↔ 8 * 86400 ≤ x) := by
    intro x
    rw [Int.fdiv_eq_ediv _ (by norm_num)]
    omega
  cases conv? with
  | none => refine ⟨by simp [get_user_type], by simp [get_user_type], ?_⟩
            simp [get_user_type]
  | some conv =>
    by_cases hm : conv.messages.isEmpty
    · have hm' : conv.messages = [] := List.isEmpty_iff.mp hm
      refine ⟨by simp [get_user_type, hm, hm'], ?_, ?_⟩
      · simp [get_user_type, hm, hm']
      · simp [get_user_type, hm, hm']
    · have hm' : conv.messages ≠ [] := by
        simpa [List.isEmpty_iff] using hm
      rcases hli : conv.last_interaction with _ | ⟨_ | t⟩
      · refine ⟨by simp [get_user_type, hm, hli, hm'], ?_, ?_⟩
        · simp [get_user_type, hm, hli, hm']
        · simp [get_user_type, hm, hli, hm']
      · refine ⟨by simp [get_user_type, hm, hli, hm'], ?_, ?_⟩
        · simp [get_user_type, hm, hli, hm']
        · simp [get_user_type, hm, hli, hm']
      · by_cases hd : 7 < Int.fdiv (now - t) 86400
        · have h8 := (hdays (now - t)).mp hd
          have heq : get_user_type now (some conv) = "inactive" := by
            simp [get_user_type, hm, hli, hd]
          have h8' : ¬ (now - t < 8 * 86400) := not_lt.mpr h8
          refine ⟨?_, ?_, ?_⟩ <;> rw [heq] <;> simp [hli, hm'] <;> omega
        · have h8 : now - t < 8 * 86400 := by
            by_contra h
            exact hd ((hdays (now - t)).mpr (le_of_not_lt h))
          have h8' : ¬ ((8 * 86400 : Int) ≤ now - t) := not_le.mpr h8
          have heq : get_user_type now (some conv) = "returning" := by
            simp [get_user_type, hm, hli, hd]
          refine ⟨?_, ?_, ?_⟩ <;> rw [heq] <;> simp [hli, hm'] <;> omega

/-! ### C3 -/

/-- Blocked customer metadata for customer C2. -/
def c3meta : CustomerMeta := { agent_blocked := true }

/-- An eligible (10 h inactive, agent-last) conversation of customer C2. -/
def c3conv : StoredConv :=
  { client_id := "T1", customer_id := "C2",
    messages := [{ role := "agent", content := "hi", timestamp := 0 }],
    created_at := 0, last_interaction := some (some 0) }

/-- C3 counterexample: with agent_blocked = true for customer C2, the
scanner — whose eligibility filter reads only conversation records, never
customer metadata — still selects C2 as a followup candidate, and a
successful dispatch sends the followup and increments the counter. -/
theorem scheduler_ignores_block_cex :
    c3meta.agent_blocked = true
    ∧ (getInactiveConversations 36000 [c3conv]).map Candidate.customer_id
        = ["C2"]
    ∧ (processConversationFollowup 36000 c3conv
        { should_send := true, followup_message := "ping" } true).followup_count
        = c3conv.followup_count + 1 := by
  refine ⟨rfl, by decide, rfl⟩

/-- C3 amended: agent_blocked = true makes the inbound webhook return the
blocked skip result with no response text, without invoking the agent
pipeline (result and state are the same for any two pipeline functions);
the followup scheduler, however, never consults agent_blocked. -/
theorem blocked_customer_skips_pipeline (now : Int)
    (cid uid text : String) (st : TurnState)
    (p q : TurnState → PipelineOut)
    (hb : st.meta.agent_blocked = true) :
    (receiveWebhookCore now cid uid text st p).2
        = { status := "ok", info := "Customer is blocked", blocked := true }
    ∧ (receiveWebhookCore now cid uid text st p).2.response = none
    ∧ receiveWebhookCore now cid uid text st p
        = receiveWebhookCore now cid uid text st q := by
  simp [receiveWebhookCore, hb]

/-- Witness for C3 (amended): a concrete blocked turn yields no response
text even though the pipeline would have produced one. -/
theorem blocked_customer_skips_pipeline_witness :
    (receiveWebhookCore 0 "T1" "C2" "hello"
      { conv := none, meta := { agent_blocked := true } }
      (fun _ => { response_text := "X", actions_taken := [] })).2.response
      = none :=
  (blocked_customer_skips_pipeline 0 "T1" "C2" "hello"
    { conv := none, meta := { agent_blocked := true } }
    (fun _ => { response_text := "X", actions_taken := [] })
    (fun _ => { response_text := "", actions_taken := ["a"] }) rfl).2.1

/-! ### C2 -/

/-- C2 counterexample: injecting into a booking URL that already has a
query string does not append "&ref=<id>" after the query — the regex match
stops before the "?", so "?ref=<id>" is inserted between the path and the
old query string. -/
theorem inject_booking_ref_query_cex :
    inject_booking_ref "https://mojo.page/x?foo=1" "877935681554548"
      = "https://mojo.page/x?ref=877935681554548?foo=1"
    ∧ inject_booking_ref "https://mojo.page/x?foo=1" "877935681554548"
      ≠ "https://mojo.page/x?foo=1&ref=877935681554548" :=
  ⟨rfl, by decide⟩

/-- C2 amended: a recognized booking URL with no query string gets
"?ref=<customer_id>" appended; a URL with an existing query string gets
"?ref=<customer_id>" inserted where the match ends — before the old query
string — instead of "&ref=<customer_id>" after it ("&" would be used only
if the matched portion itself contained "?"). -/
theorem inject_booking_ref_behavior :
    inject_booking_ref "https://cal.com/user/30min" "877935681554548"
      = "https://cal.com/user/30min?ref=877935681554548"
    ∧ inject_booking_ref "https://mojo.page/x?foo=1" "877935681554548"
      = "https://mojo.page/x?ref=877935681554548?foo=1" :=
  ⟨rfl, rfl⟩

/-! ### C9 -/

/-- C9: a cold (resp. warm) call-end qualification inserts exactly one
entry into the due-time index, scored now + cold-tier (resp. warm-tier)
delay, while a hot lead inserts nothing; a poller sweep strictly before
the entry's due time executes nothing, a sweep at or after it executes the
entry exactly once — flipping its status to completed and removing it
from the index — and any later sweep skips it. -/
theorem voice_schedule_and_poll (S : VoiceSettings) (now t1 t2 t3 : Int)
    (convId : String) (client : Option String)
    (hnow : 0 ≤ now) (hcold : 0 ≤ S.followup_delay_cold)
    (ht1 : t1 < now + S.followup_delay_cold * 60)
    (ht2 : now + S.followup_delay_cold * 60 ≤ t2) :
    schedule_followup S now convId "hot" client ⟨[], []⟩ = ⟨[], []⟩
    ∧ schedule_followup S now convId "cold" client ⟨[], []⟩ =
        ⟨[(voiceKey client convId,
           { conv_id := convId, client_id := client.getD "lumoscale",
             lead_type := "cold", followup_type := "sms_only",
             execute_at := now + S.followup_delay_cold * 60,
             status := "pending", created_at := now })],
         [(voiceKey client convId, now + S.followup_delay_cold * 60)]⟩
    ∧ schedule_followup S now convId "warm" client ⟨[], []⟩ =
        ⟨[(voiceKey client convId,
           { conv_id := convId, client_id := client.getD "lumoscale",
             lead_type := "warm", followup_type := "call_and_sms",
             execute_at := now + S.followup_delay_warm * 60,
             status := "pending", created_at := now })],
         [(voiceKey client convId, now + S.followup_delay_warm * 60)]⟩
    ∧ execute_pending_followups t1
        (schedule_followup S now convId "cold" client ⟨[], []⟩)
        = (schedule_followup S now convId "cold" client ⟨[], []⟩, 0)
    ∧ execute_pending_followups t2
        (schedule_followup S now convId "cold" client ⟨[], []⟩)
        = (⟨[(voiceKey client convId,
             { conv_id := convId, client_id := client.getD "lumoscale",
               lead_type := "cold", followup_type := "sms_only",
               execute_at := now + S.followup_delay_cold * 60,
               status := "completed", created_at := now })], []⟩, 1)
    ∧ execute_pending_followups t3
        (⟨[(voiceKey client convId,
           { conv_id := convId, client_id := client.getD "lumoscale",
             lead_type := "cold", followup_type := "sms_only",
             execute_at := now + S.followup_delay_cold * 60,
             status := "completed", created_at := now })], []⟩ : VoiceState)
        = (⟨[(voiceKey client convId,
             { conv_id := convId, client_id := client.getD "lumoscale",
               lead_type := "cold", followup_type := "sms_only",
               execute_at := now + S.followup_delay_cold * 60,
               status := "completed", created_at := now })], []⟩, 0) := by
  have hdue0 : (0 : Int) ≤ now + S.followup_delay_cold * 60 := by omega
  have hnle : ¬ (now + S.followup_delay_cold * 60 ≤ t1) := not_le.mpr ht1
  refine ⟨rfl, rfl, rfl, ?_, ?_, ?_⟩
  · simp [execute_pending_followups, schedule_followup, voiceKey,
      assocSet, hdue0, hnle]
  · simp [execute_pending_followups, schedule_followup, voiceKey,
      assocSet, assocGet, assocRemove, executeOne, hdue0, ht2]
  · simp [execute_pending_followups]

/-- Witness for C9 with the default tier delays: a cold lead scheduled at
time 1000 and polled one second before, exactly at, and after its due
time. -/
theorem voice_schedule_and_poll_witness :
    execute_pending_followups 87399
      (schedule_followup {} 1000 "conv1" "cold" none ⟨[], []⟩)
      = (schedule_followup {} 1000 "conv1" "cold" none ⟨[], []⟩, 0) :=
  (voice_schedule_and_poll {} 1000 87399 87400 90000 "conv1" none
    (by decide) (by decide) (by decide) (by decide)).2.2.2.1

end DMAgent
